import Mathlib

/-!
# Verification of the chargeback-webhook pipeline

A shallow embedding of the Shopify chargeback-webhook handler:

* the tag-escalation rule `applyTagLogic` (`src/services/chargebackService.ts`),
* HMAC signature verification `validateShopifyWebhook` (`src/utils/webhookValidator.ts`,
  base64 variant; the Node `crypto`/`Buffer` collaborators are modelled concretely:
  canonical base64 encoding, Node's forgiving base64 decoding, and
  `timingSafeEqual`, which raises when the two buffers differ in length),
* the processing pipeline `processChargeback` and the HTTP handler
  (`src/functions/chargeback.ts`), modelled as functions from the results of the
  external collaborator calls (an explicit world record) to the final result
  together with the sequence of observable effects.

JavaScript strings are embedded as `List Char`; JS `||` falsiness of the empty
string is modelled explicitly.  Each `await`ed call inside the pipeline's `try`
block may reject (all collaborator wrappers catch internally, but the pipeline's
`catch` exists precisely to guard against a rejected promise or runtime error),
so those call results live in `Except Err`.
-/

namespace ChargebackRepo

/-! ## JS string helpers -/

/-- JS `a || b` for strings: the empty string is falsy. -/
def jsOr (a : Option String) (b : String) : String :=
  match a with
  | some s => if s = "" then b else s
  | none => b

/-- JS `a || b` on character lists (tag strings). -/
def jsOrChars (a : Option (List Char)) (b : List Char) : List Char :=
  match a with
  | some s => if s = [] then b else s
  | none => b

/-- Substring containment: JS `hay.includes(needle)`. -/
def containsSub (hay needle : List Char) : Bool :=
  needle.isPrefixOf hay ||
    match hay with
    | [] => false
    | _ :: t => containsSub t needle

/-! ## Tag-escalation rule (`ChargebackService.applyTagLogic`) -/

/-- `"chargeback_flag1"` as characters. -/
def FLAG1 : List Char := "chargeback_flag1".data

/-- `"chargeback_risk"` as characters. -/
def RISK : List Char := "chargeback_risk".data

/-- `", chargeback_flag1"` (the appended text when prior tags exist). -/
def SEPFLAG1 : List Char := ", chargeback_flag1".data

/-- `", chargeback_risk"` (the appended text when prior tags exist). -/
def SEPRISK : List Char := ", chargeback_risk".data

structure TagResult where
  shouldUpdate : Bool
  newTags : List Char
  action : String
  deriving Repr, DecidableEq

/-- `ChargebackService.applyTagLogic`, translated from
`src/services/chargebackService.ts` lines 207–236. -/
def applyTagLogic (currentTags : List Char) : TagResult :=
  let hasChargebackFlag1 := containsSub currentTags FLAG1
  let hasChargebackRisk := containsSub currentTags RISK
  if hasChargebackRisk then
    { shouldUpdate := false
      newTags := currentTags
      action := "Customer already has chargeback_risk, no need to add chargeback_flag1" }
  else if !hasChargebackFlag1 then
    { shouldUpdate := true
      newTags := if currentTags = [] then FLAG1 else currentTags ++ SEPFLAG1
      action := "Added tag: chargeback_flag1" }
  else
    { shouldUpdate := true
      newTags := if currentTags = [] then RISK else currentTags ++ SEPRISK
      action := "Added tag: chargeback_risk (customer already has chargeback_flag1)" }

/-- The tag rule exactly as claim C2 words it (the branch structure of the
spec's escalation ladder): risk present ⇒ no update; flag absent ⇒ append
`chargeback_flag1` (bare when empty); otherwise append `", chargeback_risk"`. -/
def applyTagLogicSpec (s : List Char) : TagResult :=
  if containsSub s RISK then
    { shouldUpdate := false
      newTags := s
      action := "Customer already has chargeback_risk, no need to add chargeback_flag1" }
  else if !containsSub s FLAG1 then
    { shouldUpdate := true
      newTags := if s = [] then FLAG1 else s ++ SEPFLAG1
      action := "Added tag: chargeback_flag1" }
  else
    { shouldUpdate := true
      newTags := s ++ SEPRISK
      action := "Added tag: chargeback_risk (customer already has chargeback_flag1)" }

/-! ### Substring lemmas -/

theorem containsSub_eq (hay needle : List Char) :
    containsSub hay needle =
      (needle.isPrefixOf hay ||
        match hay with
        | [] => false
        | _ :: t => containsSub t needle) := by
  rw [containsSub.eq_def]

theorem containsSub_of_isPrefixOf {hay needle : List Char}
    (h : needle.isPrefixOf hay = true) : containsSub hay needle = true := by
  rw [containsSub_eq, h, Bool.true_or]

theorem containsSub_append_left (s u t : List Char)
    (h : containsSub u t = true) : containsSub (s ++ u) t = true := by
  induction s with
  | nil => simpa using h
  | cons a s ih =>
    rw [List.cons_append, containsSub_eq]
    simp [ih]

theorem containsSub_of_suffix {s' s t : List Char} (hsuf : s' <:+ s)
    (h : containsSub s' t = true) : containsSub s t = true := by
  obtain ⟨pre, rfl⟩ := hsuf
  exact containsSub_append_left _ _ _ h

/-- Decomposition of a substring occurrence in an append: the occurrence lies
wholly in the right part, or it starts inside the left part (at the start of
some suffix `s'` of `s`). -/
theorem containsSub_append_cases (s u t : List Char)
    (h : containsSub (s ++ u) t = true) :
    (∃ s', s' <:+ s ∧ t.isPrefixOf (s' ++ u) = true) ∨ containsSub u t = true := by
  induction s with
  | nil => right; simpa using h
  | cons a s ih =>
    rw [List.cons_append, containsSub_eq] at h
    rcases Bool.or_eq_true_iff.mp h with h1 | h2
    · exact Or.inl ⟨a :: s, List.suffix_refl _, by simpa using h1⟩
    · rcases ih h2 with ⟨s', hs', hp⟩ | hu
      · exact Or.inl ⟨s', hs'.trans (List.suffix_cons a s), hp⟩
      · exact Or.inr hu

/-- `"chargeback_risk"` contains no comma, while the appended flag text starts
with one, so appending `", chargeback_flag1"` cannot create an occurrence of
`"chargeback_risk"` that was not already there. -/
theorem containsSub_append_SEPFLAG1 {s : List Char}
    (h : containsSub s RISK = false) : containsSub (s ++ SEPFLAG1) RISK = false := by
  by_contra hc
  rw [Bool.not_eq_false] at hc
  rcases containsSub_append_cases _ _ _ hc with ⟨s', hsuf, hp⟩ | hu
  · rw [ List.isPrefixOf_iff_prefix] at hp
    by_cases hlen : RISK.length ≤ s'.length
    · have hpre : RISK <+: s' := by
        have heq := List.prefix_iff_eq_take.mp hp
        rw [List.take_append_of_le_length hlen] at heq
        rw [heq]
        exact List.take_prefix _ _
      have hcs : containsSub s RISK = true :=
        containsSub_of_suffix hsuf
          (containsSub_of_isPrefixOf ( List.isPrefixOf_iff_prefix.mpr hpre))
      simp [h] at hcs
    · push_neg at hlen
      have heq := List.prefix_iff_eq_take.mp hp
      have h15 : RISK.length = s'.length + (RISK.length - s'.length) := by omega
      rw [h15, List.take_append] at heq
      have hmem : (',' : Char) ∈ RISK := by
        rw [heq]
        refine List.mem_append.mpr (Or.inr ?_)
        have hlenR : RISK.length = 15 := by decide
        cases hkk : RISK.length - s'.length with
        | zero => omega
        | succ m =>
          have hS : SEPFLAG1 = ',' :: (" chargeback_flag1".data) := by decide
          rw [hS, List.take_succ_cons]
          exact List.mem_cons_self _ _
      exact absurd hmem (by decide)
  · exact absurd hu (by decide)

/-- The source tag rule agrees with the claim's description of it. -/
theorem applyTagLogic_eq_spec (s : List Char) : applyTagLogic s = applyTagLogicSpec s := by
  unfold applyTagLogic applyTagLogicSpec
  by_cases hr : containsSub s RISK = true
  · simp [hr]
  · by_cases hf : containsSub s FLAG1 = true
    · have hne : ¬(s = []) := by
        intro h
        subst h
        exact absurd hf (by decide)
      simp [hr, hf, hne]
    · simp [hr, hf]

theorem containsSub_FLAG1_ne_nil {s : List Char}
    (h : containsSub s FLAG1 = true) : ¬(s = []) := by
  intro he
  subst he
  exact absurd h (by decide)

theorem applyTagLogic_risk_branch {u : List Char} (h : containsSub u RISK = true) :
    applyTagLogic u =
      { shouldUpdate := false
        newTags := u
        action := "Customer already has chargeback_risk, no need to add chargeback_flag1" } := by
  unfold applyTagLogic
  simp [h]

theorem applyTagLogic_flag_branch {u : List Char}
    (hr : containsSub u RISK = false) (hf : containsSub u FLAG1 = false) :
    applyTagLogic u =
      { shouldUpdate := true
        newTags := if u = [] then FLAG1 else u ++ SEPFLAG1
        action := "Added tag: chargeback_flag1" } := by
  unfold applyTagLogic
  simp [hr, hf]

theorem applyTagLogic_esc_branch {u : List Char}
    (hr : containsSub u RISK = false) (hf : containsSub u FLAG1 = true) :
    applyTagLogic u =
      { shouldUpdate := true
        newTags := u ++ SEPRISK
        action := "Added tag: chargeback_risk (customer already has chargeback_flag1)" } := by
  unfold applyTagLogic
  simp [hr, hf, containsSub_FLAG1_ne_nil hf]

/-- Claim C2: `applyTagLogic` matches the claimed case analysis, and on any tag
string containing neither tag the rule is a strict two-step escalation ladder:
first application appends `chargeback_flag1`, the second appends
`chargeback_risk`, and the third is a no-op. -/
theorem c2_tag_escalation (s : List Char)
    (hf : containsSub s FLAG1 = false) (hr : containsSub s RISK = false) :
    (∀ u : List Char, applyTagLogic u = applyTagLogicSpec u) ∧
    (applyTagLogic s).shouldUpdate = true ∧
    (applyTagLogic s).newTags = (if s = [] then FLAG1 else s ++ SEPFLAG1) ∧
    (applyTagLogic ((applyTagLogic s).newTags)).shouldUpdate = true ∧
    (applyTagLogic ((applyTagLogic s).newTags)).newTags
      = (applyTagLogic s).newTags ++ SEPRISK ∧
    (applyTagLogic ((applyTagLogic ((applyTagLogic s).newTags)).newTags)).shouldUpdate
      = false ∧
    (applyTagLogic ((applyTagLogic ((applyTagLogic s).newTags)).newTags)).newTags
      = (applyTagLogic ((applyTagLogic s).newTags)).newTags := by
  have h1 : applyTagLogic s =
      { shouldUpdate := true
        newTags := if s = [] then FLAG1 else s ++ SEPFLAG1
        action := "Added tag: chargeback_flag1" } :=
    applyTagLogic_flag_branch hr hf
  have ht1f : containsSub (applyTagLogic s).newTags FLAG1 = true := by
    rw [h1]
    by_cases he : s = []
    · simp only [he, if_pos]
      decide
    · simp only [if_neg he]
      exact containsSub_append_left _ _ _ (by decide)
  have ht1r : containsSub (applyTagLogic s).newTags RISK = false := by
    rw [h1]
    by_cases he : s = []
    · simp only [he, if_pos]
      decide
    · simp only [if_neg he]
      exact containsSub_append_SEPFLAG1 hr
  have h2 : applyTagLogic ((applyTagLogic s).newTags) =
      { shouldUpdate := true
        newTags := (applyTagLogic s).newTags ++ SEPRISK
        action := "Added tag: chargeback_risk (customer already has chargeback_flag1)" } :=
    applyTagLogic_esc_branch ht1r ht1f
  have ht2r : containsSub ((applyTagLogic s).newTags ++ SEPRISK) RISK = true :=
    containsSub_append_left _ _ _ (by decide)
  have h3 : applyTagLogic ((applyTagLogic ((applyTagLogic s).newTags)).newTags) =
      { shouldUpdate := false
        newTags := (applyTagLogic ((applyTagLogic s).newTags)).newTags
        action := "Customer already has chargeback_risk, no need to add chargeback_flag1" } := by
    rw [h2]
    exact applyTagLogic_risk_branch ht2r
  refine ⟨applyTagLogic_eq_spec, ?_, ?_, ?_, ?_, ?_, ?_⟩
  · rw [h1]
  · rw [h1]
  · rw [h2]
  · rw [h2]
  · rw [h3]
  · rw [h3]

/-- Witness for C2 at the concrete untagged string `"vip"`:
`"vip"` → `"vip, chargeback_flag1"` → `"vip, chargeback_flag1, chargeback_risk"` → unchanged. -/
theorem c2_tag_escalation_witness :
    containsSub "vip".data FLAG1 = false ∧
    containsSub "vip".data RISK = false ∧
    (applyTagLogic "vip".data).newTags = "vip, chargeback_flag1".data ∧
    (applyTagLogic ((applyTagLogic "vip".data).newTags)).newTags
      = "vip, chargeback_flag1, chargeback_risk".data ∧
    (applyTagLogic "vip".data).shouldUpdate = true := by
  refine ⟨by decide, by decide, ?_, ?_, ?_⟩
  · have h := (c2_tag_escalation "vip".data (by decide) (by decide)).2.2.1
    rw [h]
    decide
  · have h := (c2_tag_escalation "vip".data (by decide) (by decide)).2.2.2.2.1
    rw [h]
    have h1 := (c2_tag_escalation "vip".data (by decide) (by decide)).2.2.1
    rw [h1]
    decide
  · exact (c2_tag_escalation "vip".data (by decide) (by decide)).2.1

/-! ## Base64 and signature verification (`validateShopifyWebhook`)

The Node collaborators are modelled concretely: `base64encode` is the canonical
encoding produced by `digest('base64')`, `base64decode` is `Buffer.from(s,
'base64')` (alphabet characters are decoded, `'='` and other non-alphabet
characters are skipped, a trailing lone sextet is dropped), and
`timingSafeEqual` yields `none` (an exception) when the byte lengths differ.
The HMAC-SHA256 digest itself is an abstract parameter. -/

def b64chars : List Char :=
  "ABCDEFGHIJKLMNOPQRSTUVWXYZabcdefghijklmnopqrstuvwxyz0123456789+/".data

def b64char (n : Nat) : Char := b64chars.getD n 'A'

def b64val (c : Char) : Option Nat :=
  let i := b64chars.findIdx (fun x => x == c)
  if i < 64 then some i else none

def base64encode : List Nat → List Char
  | [] => []
  | [b1] => [b64char (b1 / 4), b64char (b1 % 4 * 16), '=', '=']
  | [b1, b2] => [b64char (b1 / 4), b64char (b1 % 4 * 16 + b2 / 16), b64char (b2 % 16 * 4), '=']
  | b1 :: b2 :: b3 :: rest =>
      b64char (b1 / 4) :: b64char (b1 % 4 * 16 + b2 / 16) ::
        b64char (b2 % 16 * 4 + b3 / 64) :: b64char (b3 % 64) :: base64encode rest

def base64decodeCore : List Nat → List Nat
  | a :: b :: c :: d :: rest =>
      (a * 4 + b / 16) :: (b % 16 * 16 + c / 4) :: (c % 4 * 64 + d) :: base64decodeCore rest
  | [a, b] => [a * 4 + b / 16]
  | [a, b, c] => [a * 4 + b / 16, b % 16 * 16 + c / 4]
  | _ => []

def base64decode (s : List Char) : List Nat :=
  base64decodeCore (s.filterMap b64val)

/-- Node `crypto.timingSafeEqual`: throws (`none`) when lengths differ,
otherwise constant-time byte equality. -/
def timingSafeEqual (a b : List Nat) : Option Bool :=
  if a.length = b.length then some (a == b) else none

/-- `validateShopifyWebhook` from `src/utils/webhookValidator.ts` (the base64
variant): the configured secret and the presented header are `[]` when unset or
empty (JS falsiness); the raw body enters only through the abstract digest
function.  The surrounding `try/catch` maps a `timingSafeEqual` exception to
`false`. -/
def validateShopifyWebhook (hmacSha256 : List Char → List Char → List Nat)
    (webhookSecret hmacHeader body : List Char) : Bool :=
  if webhookSecret = [] then false
  else if hmacHeader = [] then true
  else
    match timingSafeEqual (base64decode hmacHeader)
        (base64decode (base64encode (hmacSha256 webhookSecret body))) with
    | some b => b
    | none => false

theorem b64val_b64char : ∀ n, n < 64 → b64val (b64char n) = some n := by decide

theorem b64val_eq : b64val '=' = none := by decide

theorem b64_roundtrip : ∀ (bs : List Nat), (∀ b ∈ bs, b < 256) →
    base64decode (base64encode bs) = bs
  | [] => fun _ => rfl
  | [b1] => fun h => by
      have hb1 : b1 < 256 := h b1 (by simp)
      have e1 := b64val_b64char (b1 / 4) (by omega)
      have e2 := b64val_b64char (b1 % 4 * 16) (by omega)
      show base64decodeCore (List.filterMap b64val _) = _
      simp only [base64encode, List.filterMap_cons, e1, e2, b64val_eq,
        List.filterMap_nil, base64decodeCore]
      simp only [List.cons.injEq, and_true]
      omega
  | [b1, b2] => fun h => by
      have hb1 : b1 < 256 := h b1 (by simp)
      have hb2 : b2 < 256 := h b2 (by simp)
      have e1 := b64val_b64char (b1 / 4) (by omega)
      have e2 := b64val_b64char (b1 % 4 * 16 + b2 / 16) (by omega)
      have e3 := b64val_b64char (b2 % 16 * 4) (by omega)
      show base64decodeCore (List.filterMap b64val _) = _
      simp only [base64encode, List.filterMap_cons, e1, e2, e3, b64val_eq,
        List.filterMap_nil, base64decodeCore]
      simp only [List.cons.injEq, and_true]
      omega
  | (b1 :: b2 :: b3 :: rest) => fun h => by
      have hb1 : b1 < 256 := h b1 (by simp)
      have hb2 : b2 < 256 := h b2 (by simp)
      have hb3 : b3 < 256 := h b3 (by simp)
      have ih : base64decodeCore (List.filterMap b64val (base64encode rest)) = rest :=
        b64_roundtrip rest (fun b hb => h b (by simp [hb]))
      have e1 := b64val_b64char (b1 / 4) (by omega)
      have e2 := b64val_b64char (b1 % 4 * 16 + b2 / 16) (by omega)
      have e3 := b64val_b64char (b2 % 16 * 4 + b3 / 64) (by omega)
      have e4 := b64val_b64char (b3 % 64) (by omega)
      show base64decodeCore (List.filterMap b64val _) = _
      simp only [base64encode, List.filterMap_cons, e1, e2, e3, e4, base64decodeCore]
      rw [ih]
      simp only [List.cons.injEq, and_true]
      refine ⟨by omega, by omega, by omega⟩

theorem base64decode_ne_of_length {h : List Char} {d : List Nat}
    (hl : ¬((base64decode h).length = d.length)) : ¬(base64decode h = d) := by
  intro he
  exact hl (by rw [he])

/-- Claim C3 (amended): signature verification fails closed without a secret, passes
open without a header, and otherwise accepts exactly when the presented header
base64-decodes to the digest bytes — byte equality after decoding, not textual
equality of the encodings. -/
theorem c3_signature_verification (hmacSha256 : List Char → List Char → List Nat)
    (secret h body : List Char) (hs : ¬(secret = [])) (hh : ¬(h = []))
    (hb : ∀ b ∈ hmacSha256 secret body, b < 256) :
    validateShopifyWebhook hmacSha256 [] h body = false ∧
    validateShopifyWebhook hmacSha256 secret [] body = true ∧
    (validateShopifyWebhook hmacSha256 secret h body = true ↔
      base64decode h = hmacSha256 secret body) := by
  refine ⟨rfl, ?_, ?_⟩
  · unfold validateShopifyWebhook
    simp [hs]
  · unfold validateShopifyWebhook
    rw [b64_roundtrip _ hb]
    by_cases hl : (base64decode h).length = (hmacSha256 secret body).length
    · have hts : timingSafeEqual (base64decode h) (hmacSha256 secret body)
          = some (base64decode h == hmacSha256 secret body) := by
        unfold timingSafeEqual
        simp [hl]
      simp [hs, hh, hts]
    · have hts : timingSafeEqual (base64decode h) (hmacSha256 secret body) = none := by
        unfold timingSafeEqual
        simp [hl]
      simp only [hs, hh, hts, if_neg, if_false]
      constructor
      · intro hfalse
        exact absurd hfalse (by simp)
      · intro heq
        exact absurd heq (base64decode_ne_of_length hl)

/-- A fixed 32-byte digest (all zeros), standing in for an HMAC-SHA256 value. -/
def cexDigest : List Nat := List.replicate 32 0

def cexHmacFn : List Char → List Char → List Nat := fun _ _ => cexDigest

/-- The padding-free base64 variant: 43 `'A'`s (canonical is 43 `'A'`s + `'='`). -/
def cexHeader : List Char := List.replicate 43 'A'

/-- Claim C3 counterexample: with a digest of 32 zero bytes, the canonical encoding
is 43 `'A'`s followed by `'='`; presenting the padding-free variant (43 `'A'`s)
verifies `true` although it is not textually equal to the encoded digest — so
"returns true iff the presented signature equals the digest in the same textual
encoding" fails in the only-if direction. -/
theorem c3_counterexample :
    validateShopifyWebhook cexHmacFn "s".data cexHeader "b".data = true ∧
    ¬(cexHeader = base64encode (cexHmacFn "s".data "b".data)) := by
  refine ⟨by decide, by decide⟩

theorem c3_signature_verification_witness :
    validateShopifyWebhook cexHmacFn "s".data (base64encode cexDigest) "b".data = true :=
  ((c3_signature_verification cexHmacFn "s".data (base64encode cexDigest) "b".data
      (by decide) (by decide) (by decide)).2.2).mpr (by decide)

/-- Claim C10: a presented header whose base64 decoding is not 32 bytes long makes
`timingSafeEqual` raise (`none`), and the surrounding catch converts that into
`false` — no exception escapes `validateShopifyWebhook`. -/
theorem c10_length_mismatch_caught (hmacSha256 : List Char → List Char → List Nat)
    (secret h body : List Char) (hs : ¬(secret = [])) (hh : ¬(h = []))
    (hb : ∀ b ∈ hmacSha256 secret body, b < 256)
    (hlen : (hmacSha256 secret body).length = 32)
    (hmis : ¬((base64decode h).length = 32)) :
    timingSafeEqual (base64decode h)
        (base64decode (base64encode (hmacSha256 secret body))) = none ∧
    validateShopifyWebhook hmacSha256 secret h body = false := by
  have hts : timingSafeEqual (base64decode h)
      (base64decode (base64encode (hmacSha256 secret body))) = none := by
    unfold timingSafeEqual
    rw [b64_roundtrip _ hb, hlen]
    simp [hmis]
  refine ⟨hts, ?_⟩
  unfold validateShopifyWebhook
  simp [hs, hh, hts]

theorem c10_length_mismatch_caught_witness :
    validateShopifyWebhook cexHmacFn "s".data "QQ".data "b".data = false :=
  (c10_length_mismatch_caught cexHmacFn "s".data "QQ".data "b".data
    (by decide) (by decide) (by decide) (by decide) (by decide)).2

/-! ## Data model (`src/types/shopify.ts`, `src/services/databaseService.ts`) -/

structure Customer where
  id : Nat
  first_name : Option String
  last_name : Option String
  email : Option String
  tags : Option (List Char)
  deriving Repr, DecidableEq

structure Order where
  id : Nat
  name : String
  customer : Option Customer
  deriving Repr, DecidableEq

structure Dispute where
  id : Nat
  order_id : Nat
  amount : String
  currency : String
  reason : String
  status : String
  type : String
  created_at : String
  network_reason_code : String
  evidence_due_by : String
  deriving Repr, DecidableEq

/-- An opening brace character (kept out of string literals). -/
def lbrace : Char := Char.ofNat 123

/-- A closing brace character. -/
def rbrace : Char := Char.ofNat 125

def hexDigit (n : Nat) : Char := "0123456789abcdef".data.getD n '0'

/-- One character of `JSON.stringify` string escaping. -/
def jsonEscapeChar (c : Char) : List Char :=
  if c = '"' then ['\\', '"']
  else if c = '\\' then ['\\', '\\']
  else if c.toNat < 32 then ['\\', 'u', '0', '0', hexDigit (c.toNat / 16), hexDigit (c.toNat % 16)]
  else [c]

def jsonEscape (s : List Char) : List Char := (s.map jsonEscapeChar).flatten

def jsonStrChars (s : List Char) : List Char := '"' :: (jsonEscape s ++ ['"'])

/-- `JSON.stringify(dispute)` (field order as declared). -/
def stringifyDispute (d : Dispute) : List Char :=
  [lbrace] ++ "\"id\":".data ++ (toString d.id).data
    ++ ",\"order_id\":".data ++ (toString d.order_id).data
    ++ ",\"amount\":".data ++ jsonStrChars d.amount.data
    ++ ",\"currency\":".data ++ jsonStrChars d.currency.data
    ++ ",\"reason\":".data ++ jsonStrChars d.reason.data
    ++ ",\"status\":".data ++ jsonStrChars d.status.data
    ++ ",\"type\":".data ++ jsonStrChars d.type.data
    ++ ",\"created_at\":".data ++ jsonStrChars d.created_at.data
    ++ ",\"network_reason_code\":".data ++ jsonStrChars d.network_reason_code.data
    ++ ",\"evidence_due_by\":".data ++ jsonStrChars d.evidence_due_by.data
    ++ [rbrace]

/-- `WebhookRecord` from `databaseService.ts` (`dispute_amount` is kept as the
raw amount string; the JS `parseFloat` to a double is not modelled, and the
wall-clock `processed_at` column is omitted). -/
structure WebhookRecord where
  customer_name : String
  customer_email : String
  order_id : Nat
  webhook_json : List Char
  action : String
  customer_tags_before : List Char
  customer_tags_after : List Char
  dispute_id : Nat
  dispute_amount : String
  dispute_currency : String
  dispute_reason : String
  dispute_status : String
  deriving Repr, DecidableEq

structure ErrorRecord where
  http_code : Nat
  error_message : String
  error_type : String
  function_name : String
  order_id : Option Nat
  dispute_id : Option Nat
  customer_email : Option String
  stack_trace : Option String
  request_data : Option (List Char)
  environment : String
  deriving Repr, DecidableEq

/-- A thrown JS error (`message`, `constructor.name`, `stack`). -/
structure Err where
  message : String
  name : String
  stack : String
  deriving Repr, DecidableEq

/-- One observable call to an external collaborator. -/
inductive Effect where
  | testConn : Effect
  | getOrderCall (orderId : Nat) : Effect
  | updateTags (customerId : Nat) (tags : List Char) : Effect
  | insertWebhook (r : WebhookRecord) : Effect
  | insertError (r : ErrorRecord) : Effect
  | notify (dispute : Option Dispute) (action : Option String)
      (customerName customerEmail orderName : Option String) : Effect
  deriving Repr, DecidableEq

structure PipeResult where
  success : Bool
  statusCode : Nat
  message : String
  deriving Repr, DecidableEq

/-- Results of the collaborator calls that `processChargeback` makes, in call
order.  The calls `await`ed inside the `try` block are `Except Err` valued: an
`.error` models a rejected promise / runtime error at that call, which the
pipeline's `catch` handles.  `getOrderRetry` is the email-recovery lookup
inside the catch (guarded by its own inner `try`). -/
structure PipelineWorld where
  testConn : Except Err Bool
  getOrder : Except Err (Option Order)
  updateTags : Except Err Bool
  insertWebhook : Except Err Bool
  notify : Except Err Bool
  getOrderRetry : Except Err (Option Order)

/-! ## `ChargebackService.processChargeback` (`src/services/chargebackService.ts`) -/

/-- `order.customer ? trim(first + " " + last) : "Customer not identified"`. -/
def customerNameOf (order : Order) : String :=
  match order.customer with
  | some c => (jsOr c.first_name "" ++ " " ++ jsOr c.last_name "").trim
  | none => "Customer not identified"

/-- `order.customer?.email || "email@not.identified.com"`. -/
def customerEmailOf (order : Order) : String :=
  jsOr (order.customer.bind Customer.email) "email@not.identified.com"

/-- `order.customer?.tags || ""`. -/
def customerTagsOf (order : Order) : List Char :=
  jsOrChars (order.customer.bind Customer.tags) []

/-- `order.name || "#<order_id>"`. -/
def orderNameOf (d : Dispute) (order : Order) : String :=
  if order.name = "" then "#" ++ toString d.order_id else order.name

/-- Email recovery inside the pipeline's catch: a fresh `getOrder` guarded by
an inner `try`, falling back to the placeholder email. -/
def retryEmail (w : PipelineWorld) : String :=
  match w.getOrderRetry with
  | Except.ok (some o) =>
    match o.customer with
    | some c => jsOr c.email "email@not.identified.com"
    | none => "email@not.identified.com"
  | _ => "email@not.identified.com"

/-- The `ErrorRecord` written by the pipeline's catch branch (HTTP 500). -/
def catchRecord (d : Dispute) (env : String) (w : PipelineWorld) (e : Err) : ErrorRecord :=
  { http_code := 500
    error_message := e.message
    error_type := e.name
    function_name := "ChargebackService.processChargeback"
    order_id := some d.order_id
    dispute_id := some d.id
    customer_email := some (retryEmail w)
    stack_trace := some e.stack
    request_data := some (stringifyDispute d)
    environment := env }

/-- The `ErrorRecord` written on the order-not-found branch (HTTP 404). -/
def notFoundRecord (d : Dispute) (env : String) : ErrorRecord :=
  { http_code := 404
    error_message := "Order " ++ toString d.order_id ++ " not found"
    error_type := "OrderNotFound"
    function_name := "ChargebackService.processChargeback"
    order_id := some d.order_id
    dispute_id := some d.id
    customer_email := some "email@not.identified.com"
    stack_trace := none
    request_data := none
    environment := env }

/-- Result and effects of the pipeline's catch branch: when the database is
available, the email-recovery lookup and the 500 `ErrorRecord` insert; then
always one failure notification; returns `{false, 500}`. -/
def catchTail (d : Dispute) (env : String) (dbAvail : Bool) (w : PipelineWorld) (e : Err) :
    PipeResult × List Effect :=
  ({ success := false, statusCode := 500, message := "Internal server error" },
   (if dbAvail then
      [Effect.getOrderCall d.order_id, Effect.insertError (catchRecord d env w e)]
    else []) ++
     [Effect.notify (some d) (some "Failed to process chargeback") none none none])

/-- Steps 2–7 of the pipeline, once the order has been fetched: derive customer
fields, apply the tag rule, conditionally update tags (failure keeps the
original tags, processing continues), persist the webhook record when the
database is available, send the success notification, return `{true, 200}`.
A rejection at any `await` diverts to `catchTail`. -/
def afterOrderStage (d : Dispute) (env : String) (w : PipelineWorld)
    (dbAvail : Bool) (order : Order) : PipeResult × List Effect :=
  let customerTags := customerTagsOf order
  let tagResult := applyTagLogic customerTags
  let upd : List Effect × Except Err (List Char) :=
    if tagResult.shouldUpdate then
      match order.customer with
      | some c =>
        ([Effect.updateTags c.id tagResult.newTags],
          match w.updateTags with
          | Except.error e => Except.error e
          | Except.ok true => Except.ok tagResult.newTags
          | Except.ok false => Except.ok customerTags)
      | none => ([], Except.ok customerTags)
    else ([], Except.ok customerTags)
  match upd.2 with
  | Except.error e =>
    let t := catchTail d env dbAvail w e
    (t.1, upd.1 ++ t.2)
  | Except.ok finalTags =>
    let record : WebhookRecord :=
      { customer_name := customerNameOf order
        customer_email := customerEmailOf order
        order_id := d.order_id
        webhook_json := stringifyDispute d
        action := tagResult.action
        customer_tags_before := customerTags
        customer_tags_after := finalTags
        dispute_id := d.id
        dispute_amount := d.amount
        dispute_currency := d.currency
        dispute_reason := d.reason
        dispute_status := d.status }
    let persist : List Effect × Except Err Unit :=
      if dbAvail then
        ([Effect.insertWebhook record],
          match w.insertWebhook with
          | Except.error e => Except.error e
          | Except.ok _ => Except.ok ())
      else ([], Except.ok ())
    match persist.2 with
    | Except.error e =>
      let t := catchTail d env dbAvail w e
      (t.1, upd.1 ++ (persist.1 ++ t.2))
    | Except.ok _ =>
      let notifyEff := Effect.notify (some d) (some tagResult.action)
        (some (customerNameOf order)) (some (customerEmailOf order))
        (some (orderNameOf d order))
      match w.notify with
      | Except.error e =>
        let t := catchTail d env dbAvail w e
        (t.1, upd.1 ++ (persist.1 ++ (notifyEff :: t.2)))
      | Except.ok _ =>
        ({ success := true, statusCode := 200, message := "Chargeback processed successfully" },
          upd.1 ++ (persist.1 ++ [notifyEff]))

/-- `ChargebackService.processChargeback`, lines 25–202: test the connection
(the service is fresh per request, so `dbAvailable` starts `false`), fetch the
order (404 branch writes one `ErrorRecord` and deliberately does not notify),
then the post-order stage; any rejection lands in the catch branch. -/
def processChargeback (d : Dispute) (env : String) (w : PipelineWorld) :
    PipeResult × List Effect :=
  match w.testConn with
  | Except.error e =>
    let t := catchTail d env false w e
    (t.1, Effect.testConn :: t.2)
  | Except.ok dbAvail =>
    match w.getOrder with
    | Except.error e =>
      let t := catchTail d env dbAvail w e
      (t.1, Effect.testConn :: Effect.getOrderCall d.order_id :: t.2)
    | Except.ok none =>
      ({ success := false, statusCode := 404,
         message := "Order " ++ toString d.order_id ++ " not found" },
       Effect.testConn :: Effect.getOrderCall d.order_id ::
         (if dbAvail then [Effect.insertError (notFoundRecord d env)] else []))
    | Except.ok (some order) =>
      let t := afterOrderStage d env w dbAvail order
      (t.1, Effect.testConn :: Effect.getOrderCall d.order_id :: t.2)

/-! ## HTTP handler (`src/functions/chargeback.ts`) -/

/-- The control characters removed by `sanitizeRequestData`'s first replace
(`[\x00-\x1F\x7F-\x9F]`). -/
def isStrippedControl (c : Char) : Bool :=
  c.toNat ≤ 31 || (127 ≤ c.toNat && c.toNat ≤ 159)

def stripControl (s : List Char) : List Char :=
  s.filter (fun c => !isStrippedControl c)

/-- `.replace(/target/g, "\\e")`: every occurrence of `target` becomes a
backslash escape. -/
def escapeChar (target e : Char) (s : List Char) : List Char :=
  (s.map (fun c => if c = target then ['\\', e] else [c])).flatten

/-- The replace chain of `sanitizeRequestData`: strip control characters, then
escape newlines, carriage returns and tabs. -/
def sanitizeCore (data : List Char) : List Char :=
  escapeChar '\t' 't' (escapeChar '\r' 'r' (escapeChar '\n' 'n' (stripControl data)))

/-- `JSON.stringify({original_data, length, error})`. -/
def jsonWrapInvalid (sanitized : List Char) (len : Nat) : List Char :=
  [lbrace] ++ "\"original_data\":".data ++ jsonStrChars sanitized
    ++ ",\"length\":".data ++ (toString len).data
    ++ ",\"error\":\"Invalid JSON data\"".data ++ [rbrace]

/-- `sanitizeRequestData` from the handler file.  `isValidJson` stands for
`JSON.parse(data)` succeeding (the branch actually taken is fixed at each call
site: the parse-error branch is reached exactly when the body is invalid). -/
def sanitizeRequestData (isValidJson : Bool) (data : List Char) : List Char :=
  if isValidJson then data
  else jsonWrapInvalid (sanitizeCore data) data.length

/-- `persistError`: its own `testConnection`, then the insert when available. -/
def persistErrorEffects (peConn : Bool) (r : ErrorRecord) : List Effect :=
  Effect.testConn :: (if peConn then [Effect.insertError r] else [])

def handlerFn : String := "ChargebackWebhook.handler"

def sigErrRecord (env : String) : ErrorRecord :=
  { http_code := 401, error_message := "Invalid webhook signature"
    error_type := "InvalidSignature", function_name := handlerFn
    order_id := none, dispute_id := none, customer_email := none
    stack_trace := none, request_data := none, environment := env }

def topicErrRecord (env : String) : ErrorRecord :=
  { http_code := 400, error_message := "Webhook is not a chargeback type"
    error_type := "UnsupportedWebhookType", function_name := handlerFn
    order_id := none, dispute_id := none, customer_email := none
    stack_trace := none, request_data := none, environment := env }

def domainErrRecord (env : String) : ErrorRecord :=
  { http_code := 403, error_message := "Invalid shop domain"
    error_type := "InvalidShopDomain", function_name := handlerFn
    order_id := none, dispute_id := none, customer_email := none
    stack_trace := none, request_data := none, environment := env }

def jsonErrRecord (body : List Char) (env msg : String) : ErrorRecord :=
  { http_code := 400, error_message := "JSON parse error: " ++ msg
    error_type := "JSONParseError", function_name := handlerFn
    order_id := none, dispute_id := none, customer_email := none
    stack_trace := none, request_data := some (sanitizeRequestData false body)
    environment := env }

def typeErrRecord (d : Dispute) (env : String) : ErrorRecord :=
  { http_code := 400, error_message := "Unsupported dispute type: " ++ d.type
    error_type := "UnsupportedDisputeType", function_name := handlerFn
    order_id := none, dispute_id := some d.id, customer_email := none
    stack_trace := none
    request_data := some (sanitizeRequestData true (stringifyDispute d))
    environment := env }

def procErrRecord (d : Dispute) (r : PipeResult) (env : String) : ErrorRecord :=
  { http_code := if r.statusCode = 0 then 500 else r.statusCode
    error_message := if r.message = "" then "Failed to process chargeback" else r.message
    error_type := "ProcessingError", function_name := handlerFn
    order_id := some d.order_id, dispute_id := some d.id, customer_email := none
    stack_trace := none, request_data := none, environment := env }

structure HandlerResult where
  status : Nat
  body : String
  deriving Repr, DecidableEq

/-- Gate results and collaborator outcomes for one handler invocation.
`parsed = none` means `JSON.parse(body)` threw (with message `parseErrMsg`);
`peConn` is the `testConnection` result inside `persistError` (a fresh
`DatabaseService` in the handler, separate from the pipeline's). -/
structure HandlerWorld where
  sigValid : Bool
  topicOk : Bool
  domainOk : Bool
  parsed : Option Dispute
  parseErrMsg : String
  peConn : Bool
  pw : PipelineWorld

/-- The `chargeback` HTTP handler: signature → topic → domain → JSON parse →
dispute-type gate → pipeline; on a non-404 pipeline failure it persists a
second `ErrorRecord` and notifies again. -/
def handler (body : List Char) (env : String) (w : HandlerWorld) :
    HandlerResult × List Effect :=
  if !w.sigValid then
    ({ status := 401, body := "Unauthorized" },
     persistErrorEffects w.peConn (sigErrRecord env) ++
       [Effect.notify none (some "Invalid webhook signature") none none none])
  else if !w.topicOk then
    ({ status := 400, body := "Unsupported webhook type" },
     persistErrorEffects w.peConn (topicErrRecord env))
  else if !w.domainOk then
    ({ status := 403, body := "Forbidden" },
     persistErrorEffects w.peConn (domainErrRecord env))
  else
    match w.parsed with
    | none =>
      ({ status := 400, body := "Invalid JSON" },
       persistErrorEffects w.peConn (jsonErrRecord body env w.parseErrMsg) ++
         [Effect.notify none (some ("JSON parse error: " ++ w.parseErrMsg)) none none none])
    | some d =>
      if !(d.type = "chargeback") then
        ({ status := 400, body := "Unsupported dispute type" },
         persistErrorEffects w.peConn (typeErrRecord d env) ++
           [Effect.notify (some d) (some ("Unsupported dispute type: " ++ d.type))
             none none none])
      else
        let pr := processChargeback d env w.pw
        if pr.1.success then
          ({ status := 200, body := "Webhook processed successfully" }, pr.2)
        else if pr.1.statusCode = 404 then
          ({ status := 404, body := pr.1.message }, pr.2)
        else
          ({ status := if pr.1.statusCode = 0 then 500 else pr.1.statusCode,
             body := if pr.1.message = "" then "Internal server error" else pr.1.message },
           pr.2 ++ (persistErrorEffects w.peConn (procErrRecord d pr.1 env) ++
             [Effect.notify (some d) (some "Failed to process chargeback") none none none]))

/-! ## Trace observers -/

/-- The `ErrorRecord` insert attempts in a trace, in order. -/
def errorRecords (tr : List Effect) : List ErrorRecord :=
  tr.filterMap fun e => match e with
    | Effect.insertError r => some r
    | _ => none

/-- The `WebhookRecord` insert attempts in a trace, in order. -/
def webhookRecords (tr : List Effect) : List WebhookRecord :=
  tr.filterMap fun e => match e with
    | Effect.insertWebhook r => some r
    | _ => none

def isNotify (e : Effect) : Bool :=
  match e with
  | Effect.notify _ _ _ _ _ => true
  | _ => false

def notifyCount (tr : List Effect) : Nat := (tr.filter isNotify).length

def isGetOrder (e : Effect) : Bool :=
  match e with
  | Effect.getOrderCall _ => true
  | _ => false

def getOrderCount (tr : List Effect) : Nat := (tr.filter isGetOrder).length

def isUpdateTags (e : Effect) : Bool :=
  match e with
  | Effect.updateTags _ _ => true
  | _ => false

def updateTagsCount (tr : List Effect) : Nat := (tr.filter isUpdateTags).length

def isPersist (e : Effect) : Bool :=
  match e with
  | Effect.insertError _ => true
  | Effect.insertWebhook _ => true
  | _ => false

/-- `true` iff no persistence attempt occurs after any notification: all
persists precede all notifies. -/
def persistsPrecedeNotifies : List Effect → Bool
  | [] => true
  | e :: t =>
    (if isNotify e then t.all (fun x => !isPersist x) else true) && persistsPrecedeNotifies t

/-! ## Claim theorems -/

theorem handler_gates_pass (body : List Char) (env : String) (w : HandlerWorld)
    (d : Dispute) (hsig : w.sigValid = true) (htopic : w.topicOk = true)
    (hdom : w.domainOk = true) (hparse : w.parsed = some d)
    (htype : d.type = "chargeback") :
    handler body env w =
      (let pr := processChargeback d env w.pw
       if pr.1.success then
         ({ status := 200, body := "Webhook processed successfully" }, pr.2)
       else if pr.1.statusCode = 404 then
         ({ status := 404, body := pr.1.message }, pr.2)
       else
         ({ status := if pr.1.statusCode = 0 then 500 else pr.1.statusCode,
            body := if pr.1.message = "" then "Internal server error" else pr.1.message },
          pr.2 ++ (persistErrorEffects w.peConn (procErrRecord d pr.1 env) ++
            [Effect.notify (some d) (some "Failed to process chargeback")
              none none none]))) := by
  unfold handler
  rw [hsig, htopic, hdom, hparse]
  simp [htype]

theorem processChargeback_not_found (d : Dispute) (env : String) (w : PipelineWorld)
    (htc : w.testConn = Except.ok true) (hgo : w.getOrder = Except.ok none) :
    processChargeback d env w =
      ({ success := false, statusCode := 404,
         message := "Order " ++ toString d.order_id ++ " not found" },
       [Effect.testConn, Effect.getOrderCall d.order_id,
        Effect.insertError (notFoundRecord d env)]) := by
  unfold processChargeback
  rw [htc, hgo]
  simp

/-- Claim C4: when the order lookup returns no order (database available), the
combined handler-plus-pipeline run returns status 404, attempts exactly one
`ErrorRecord` persist — with HTTP code 404 and kind `OrderNotFound` — and sends
zero notifications (the pipeline suppresses it and the handler returns
directly on 404). -/
theorem c4_order_not_found (body : List Char) (env : String) (w : HandlerWorld)
    (d : Dispute) (hsig : w.sigValid = true) (htopic : w.topicOk = true)
    (hdom : w.domainOk = true) (hparse : w.parsed = some d)
    (htype : d.type = "chargeback")
    (htc : w.pw.testConn = Except.ok true) (hgo : w.pw.getOrder = Except.ok none) :
    (handler body env w).1 =
      { status := 404, body := "Order " ++ toString d.order_id ++ " not found" } ∧
    errorRecords (handler body env w).2 = [notFoundRecord d env] ∧
    (notFoundRecord d env).http_code = 404 ∧
    (notFoundRecord d env).error_type = "OrderNotFound" ∧
    notifyCount (handler body env w).2 = 0 := by
  rw [handler_gates_pass body env w d hsig htopic hdom hparse htype,
    processChargeback_not_found d env w.pw htc hgo]
  refine ⟨by simp, ?_, rfl, rfl, ?_⟩
  · simp [errorRecords]
  · simp [notifyCount, isNotify, List.filter]

/-- Claim C5: a dispute whose `type` is not `"chargeback"` is rejected with status
400 and kind `UnsupportedDisputeType` before any commerce-platform call: the
trace contains no `getOrder` and no `updateCustomerTags` call, so the pipeline
is never entered. -/
theorem c5_type_gate (body : List Char) (env : String) (w : HandlerWorld)
    (d : Dispute) (hsig : w.sigValid = true) (htopic : w.topicOk = true)
    (hdom : w.domainOk = true) (hparse : w.parsed = some d)
    (htype : ¬(d.type = "chargeback")) :
    (handler body env w).1 = { status := 400, body := "Unsupported dispute type" } ∧
    getOrderCount (handler body env w).2 = 0 ∧
    updateTagsCount (handler body env w).2 = 0 ∧
    errorRecords (handler body env w).2 =
      (if w.peConn then [typeErrRecord d env] else []) ∧
    (typeErrRecord d env).error_type = "UnsupportedDisputeType" := by
  unfold handler
  rw [hsig, htopic, hdom, hparse]
  cases hpc : w.peConn <;>
    simp [htype, hpc, persistErrorEffects, getOrderCount, updateTagsCount, errorRecords,
      isGetOrder, isUpdateTags, typeErrRecord, List.filter]

theorem processChargeback_found (d : Dispute) (env : String) (w : PipelineWorld)
    (order : Order) (htc : w.testConn = Except.ok true)
    (hgo : w.getOrder = Except.ok (some order)) :
    processChargeback d env w =
      ((afterOrderStage d env w true order).1,
       Effect.testConn :: Effect.getOrderCall d.order_id ::
         (afterOrderStage d env w true order).2) := by
  unfold processChargeback
  rw [htc, hgo]

/-- Claim C6: when the tag decision says update and the remote update returns `b`,
the persisted record's `customer_tags_after` is the new tag string only when
`b = true` and stays equal to `customer_tags_before` when the update failed;
either way processing continues to a success outcome with status 200. -/
theorem c6_update_failure_keeps_tags (d : Dispute) (env : String) (w : PipelineWorld)
    (order : Order) (c : Customer) (b b1 b2 : Bool)
    (htc : w.testConn = Except.ok true)
    (hgo : w.getOrder = Except.ok (some order))
    (hcust : order.customer = some c)
    (hsu : (applyTagLogic (customerTagsOf order)).shouldUpdate = true)
    (hut : w.updateTags = Except.ok b)
    (hiw : w.insertWebhook = Except.ok b1)
    (hn : w.notify = Except.ok b2) :
    (processChargeback d env w).1 =
      { success := true, statusCode := 200, message := "Chargeback processed successfully" } ∧
    webhookRecords (processChargeback d env w).2 =
      [{ customer_name := customerNameOf order
         customer_email := customerEmailOf order
         order_id := d.order_id
         webhook_json := stringifyDispute d
         action := (applyTagLogic (customerTagsOf order)).action
         customer_tags_before := customerTagsOf order
         customer_tags_after :=
           if b then (applyTagLogic (customerTagsOf order)).newTags else customerTagsOf order
         dispute_id := d.id
         dispute_amount := d.amount
         dispute_currency := d.currency
         dispute_reason := d.reason
         dispute_status := d.status }] := by
  rw [processChargeback_found d env w order htc hgo]
  unfold afterOrderStage
  rw [hcust, hut]
  cases b <;>
    simp [hsu, hiw, hn, webhookRecords]

/-- Claim C9: order found but no customer attached — no tag-update call is made, yet
the persisted record reports the placeholder name and email, empty before and
after tags, while its action text says `chargeback_flag1` was added; one
success notification is sent and the outcome is success, status 200. -/
theorem c9_customer_absent (d : Dispute) (env : String) (w : PipelineWorld) (order : Order)
    (b1 b2 : Bool)
    (htc : w.testConn = Except.ok true)
    (hgo : w.getOrder = Except.ok (some order))
    (hcust : order.customer = none)
    (hiw : w.insertWebhook = Except.ok b1)
    (hn : w.notify = Except.ok b2) :
    (processChargeback d env w).1 =
      { success := true, statusCode := 200, message := "Chargeback processed successfully" } ∧
    updateTagsCount (processChargeback d env w).2 = 0 ∧
    webhookRecords (processChargeback d env w).2 =
      [{ customer_name := "Customer not identified"
         customer_email := "email@not.identified.com"
         order_id := d.order_id
         webhook_json := stringifyDispute d
         action := "Added tag: chargeback_flag1"
         customer_tags_before := []
         customer_tags_after := []
         dispute_id := d.id
         dispute_amount := d.amount
         dispute_currency := d.currency
         dispute_reason := d.reason
         dispute_status := d.status }] ∧
    notifyCount (processChargeback d env w).2 = 1 := by
  have htags : customerTagsOf order = [] := by
    simp [customerTagsOf, hcust, jsOrChars]
  have hname : customerNameOf order = "Customer not identified" := by
    simp [customerNameOf, hcust]
  have hemail : customerEmailOf order = "email@not.identified.com" := by
    simp [customerEmailOf, hcust, jsOr]
  have htag : applyTagLogic ([] : List Char) =
      { shouldUpdate := true, newTags := FLAG1, action := "Added tag: chargeback_flag1" } := by
    decide
  rw [processChargeback_found d env w order htc hgo]
  unfold afterOrderStage
  rw [hcust]
  simp [htags, htag, hname, hemail, hiw, hn, webhookRecords, updateTagsCount, notifyCount,
    isUpdateTags, isNotify, List.filter]

theorem afterOrderStage_ppn (d : Dispute) (env : String) (w : PipelineWorld)
    (dbAvail : Bool) (order : Order) (b : Bool) (hn : w.notify = Except.ok b) :
    persistsPrecedeNotifies (afterOrderStage d env w dbAvail order).2 = true := by
  unfold afterOrderStage catchTail
  simp only []
  rw [hn]
  rcases hc : order.customer with _ | c <;>
  rcases hsu : (applyTagLogic (customerTagsOf order)).shouldUpdate with _ | _ <;>
  rcases hut : w.updateTags with e | (_ | _) <;>
  rcases hiw : w.insertWebhook with e2 | b2 <;>
  rcases dbAvail with _ | _ <;>
  simp [persistsPrecedeNotifies, isNotify, isPersist]

/-- Claim C8 (amended): within `processChargeback`'s own effect
sequence, provided the success notification itself does not reject, every
persistence attempt precedes every notification send. -/
theorem c8_pipeline_persist_precedes_notify (d : Dispute) (env : String)
    (w : PipelineWorld) (b : Bool) (hn : w.notify = Except.ok b) :
    persistsPrecedeNotifies (processChargeback d env w).2 = true := by
  unfold processChargeback
  rcases htc : w.testConn with e | dbAvail
  · simp [catchTail, persistsPrecedeNotifies, isNotify, isPersist]
  · rcases hgo : w.getOrder with e | (_ | order)
    · rcases dbAvail with _ | _ <;>
        simp [catchTail, persistsPrecedeNotifies, isNotify, isPersist]
    · rcases dbAvail with _ | _ <;>
        simp [persistsPrecedeNotifies, isNotify, isPersist]
    · have h := afterOrderStage_ppn d env w dbAvail order b hn
      simp [persistsPrecedeNotifies, isNotify, isPersist, h]

theorem afterOrderStage_counts (d : Dispute) (env : String) (w : PipelineWorld)
    (dbAvail : Bool) (order : Order) :
    (webhookRecords (afterOrderStage d env w dbAvail order).2).length ≤ 1 ∧
    (errorRecords (afterOrderStage d env w dbAvail order).2).length ≤ 1 ∧
    notifyCount (afterOrderStage d env w dbAvail order).2 ≤ 2 ∧
    ((afterOrderStage d env w dbAvail order).1.success = false →
      (afterOrderStage d env w dbAvail order).1.statusCode = 500 ∧
      1 ≤ notifyCount (afterOrderStage d env w dbAvail order).2) := by
  unfold afterOrderStage catchTail
  simp only []
  rcases hc : order.customer with _ | c <;>
  rcases hsu : (applyTagLogic (customerTagsOf order)).shouldUpdate with _ | _ <;>
  rcases hut : w.updateTags with e | (_ | _) <;>
  rcases hiw : w.insertWebhook with e2 | b2 <;>
  rcases hnt : w.notify with e3 | b3 <;>
  rcases dbAvail with _ | _ <;>
  simp [webhookRecords, errorRecords, notifyCount, isNotify,
    List.filter_append, List.filterMap_append]

theorem processChargeback_counts (d : Dispute) (env : String) (w : PipelineWorld) :
    (webhookRecords (processChargeback d env w).2).length ≤ 1 ∧
    (errorRecords (processChargeback d env w).2).length ≤ 1 ∧
    notifyCount (processChargeback d env w).2 ≤ 2 ∧
    ((processChargeback d env w).1.success = false →
      (processChargeback d env w).1.statusCode = 404 ∨
      ((processChargeback d env w).1.statusCode = 500 ∧
        1 ≤ notifyCount (processChargeback d env w).2)) := by
  unfold processChargeback
  rcases htc : w.testConn with e | dbAvail
  · simp [catchTail, webhookRecords, errorRecords, notifyCount, isNotify,
      List.filter_append, List.filterMap_append]
  · rcases hgo : w.getOrder with e | (_ | order)
    · rcases dbAvail with _ | _ <;>
        simp [catchTail, webhookRecords, errorRecords, notifyCount, isNotify,
          List.filter_append, List.filterMap_append]
    · rcases dbAvail with _ | _ <;>
        simp [webhookRecords, errorRecords, notifyCount, isNotify]
    · have h := afterOrderStage_counts d env w dbAvail order
      simp only [webhookRecords, errorRecords, notifyCount, isNotify, List.filterMap_cons,
        List.filter_cons] at h ⊢
      exact ⟨h.1, h.2.1, h.2.2.1, fun hf => Or.inr (h.2.2.2 hf)⟩

/-- Claim C1 (amended): at most one `ProcessedWebhookRecord` persist attempt per
event; but when the handler's response is 500 (a pipeline failure), the
combined service-plus-handler execution attempts **two** to three
notifications and up to **two** `ErrorRecord` persists (one in the service
catch, one more in the handler), not at most one of each. -/
theorem c1_amended_record_counts (body : List Char) (env : String) (w : HandlerWorld) :
    (webhookRecords (handler body env w).2).length ≤ 1 ∧
    ((handler body env w).1.status = 500 →
      2 ≤ notifyCount (handler body env w).2 ∧
      notifyCount (handler body env w).2 ≤ 3 ∧
      (errorRecords (handler body env w).2).length ≤ 2) := by
  unfold handler
  rcases hsv : w.sigValid with _ | _
  · cases hpc : w.peConn <;>
      simp [persistErrorEffects, webhookRecords, errorRecords, notifyCount, isNotify,
        List.filter_append, List.filterMap_append]
  · rcases htop : w.topicOk with _ | _
    · cases hpc : w.peConn <;>
        simp [persistErrorEffects, webhookRecords, errorRecords, notifyCount, isNotify,
          List.filter_append, List.filterMap_append]
    · rcases hdm : w.domainOk with _ | _
      · cases hpc : w.peConn <;>
          simp [persistErrorEffects, webhookRecords, errorRecords, notifyCount, isNotify,
            List.filter_append, List.filterMap_append]
      · rcases hpar : w.parsed with _ | d
        · cases hpc : w.peConn <;>
            simp [persistErrorEffects, webhookRecords, errorRecords, notifyCount, isNotify,
              List.filter_append, List.filterMap_append]
        · have hp := processChargeback_counts d env w.pw
          simp only [webhookRecords, errorRecords, notifyCount, isNotify] at hp
          by_cases hty : d.type = "chargeback"
          · by_cases hsucc : (processChargeback d env w.pw).1.success = true
            · simp only [webhookRecords, errorRecords, notifyCount, isNotify]
              simp [hty, hsucc]
              exact hp.1
            · have h4 := hp.2.2.2 (by simpa using hsucc)
              rcases h4 with h404 | ⟨h500, hn1⟩
              · simp only [webhookRecords, errorRecords, notifyCount, isNotify]
                simp [hty, hsucc, h404]
                exact hp.1
              · have hne404 : ((processChargeback d env w.pw).1.statusCode = 404) = False := by
                  simp [h500]
                cases hpc : w.peConn <;>
                  simp only [webhookRecords, errorRecords, notifyCount, isNotify] <;>
                  simp [hty, hsucc, hne404, h500, persistErrorEffects, isNotify,
                    List.filter_append, List.filterMap_append, List.filter_cons,
                    List.filterMap_cons] <;>
                  refine ⟨hp.1, ?_, ?_, ?_⟩ <;>
                  omega
          · cases hpc : w.peConn <;>
              simp [hty, hpc, persistErrorEffects, webhookRecords, errorRecords, notifyCount,
                isNotify, List.filter_append, List.filterMap_append]

/-! ## Concrete fixtures for counterexamples and witnesses -/

def exCustomer : Customer :=
  { id := 55, first_name := some "Ana", last_name := some "Lima",
    email := some "ana@example.com", tags := some "vip".data }

def exOrderCust : Order := { id := 101, name := "#SP1", customer := some exCustomer }

def exOrderNoCust : Order := { id := 101, name := "#SP2", customer := none }

def exDispute : Dispute :=
  { id := 7, order_id := 101, amount := "10.00", currency := "USD", reason := "fraudulent",
    status := "open", type := "chargeback", created_at := "2025-01-01",
    network_reason_code := "4837", evidence_due_by := "2025-01-15" }

def exRefund : Dispute := { exDispute with type := "refund" }

def exErr : Err := { message := "boom", name := "Error", stack := "trace" }

/-- A run in which `getOrder` rejects: the pipeline's catch branch fires. -/
def exFailPW : PipelineWorld :=
  { testConn := Except.ok true, getOrder := Except.error exErr,
    updateTags := Except.ok true, insertWebhook := Except.ok true,
    notify := Except.ok true, getOrderRetry := Except.ok none }

def ex404PW : PipelineWorld :=
  { testConn := Except.ok true, getOrder := Except.ok none,
    updateTags := Except.ok true, insertWebhook := Except.ok true,
    notify := Except.ok true, getOrderRetry := Except.ok none }

def exCustPW : PipelineWorld :=
  { testConn := Except.ok true, getOrder := Except.ok (some exOrderCust),
    updateTags := Except.ok false, insertWebhook := Except.ok true,
    notify := Except.ok true, getOrderRetry := Except.ok none }

def exNoCustPW : PipelineWorld :=
  { testConn := Except.ok true, getOrder := Except.ok (some exOrderNoCust),
    updateTags := Except.ok true, insertWebhook := Except.ok true,
    notify := Except.ok true, getOrderRetry := Except.ok none }

def exOkPW : PipelineWorld :=
  { testConn := Except.ok true, getOrder := Except.ok (some exOrderCust),
    updateTags := Except.ok true, insertWebhook := Except.ok true,
    notify := Except.ok true, getOrderRetry := Except.ok none }

def exFailHW : HandlerWorld :=
  { sigValid := true, topicOk := true, domainOk := true, parsed := some exDispute,
    parseErrMsg := "", peConn := true, pw := exFailPW }

def ex404HW : HandlerWorld :=
  { sigValid := true, topicOk := true, domainOk := true, parsed := some exDispute,
    parseErrMsg := "", peConn := true, pw := ex404PW }

def exTypeHW : HandlerWorld :=
  { sigValid := true, topicOk := true, domainOk := true, parsed := some exRefund,
    parseErrMsg := "", peConn := true, pw := exOkPW }

def exJsonHW : HandlerWorld :=
  { sigValid := true, topicOk := true, domainOk := true, parsed := none,
    parseErrMsg := "Unexpected token", peConn := true, pw := exOkPW }

/-- Claim C1 counterexample: when `getOrder` rejects (pipeline 500), the combined
run persists **two** `ErrorRecord`s (service catch + handler) and attempts
**two** notifications — contradicting "at most one record" and "exactly one
notification attempt". -/
theorem c1_counterexample :
    (handler "raw".data "development" exFailHW).1.status = 500 ∧
    (errorRecords (handler "raw".data "development" exFailHW).2).length = 2 ∧
    notifyCount (handler "raw".data "development" exFailHW).2 = 2 := by
  refine ⟨by decide, by decide, by decide⟩

theorem c1_amended_record_counts_witness :
    2 ≤ notifyCount (handler "raw".data "development" exFailHW).2 ∧
    notifyCount (handler "raw".data "development" exFailHW).2 ≤ 3 ∧
    (errorRecords (handler "raw".data "development" exFailHW).2).length ≤ 2 :=
  (c1_amended_record_counts "raw".data "development" exFailHW).2 (by decide)

/-- Claim C8 counterexample: on the same pipeline-500 run, the service's failure
notification precedes the handler's `ErrorRecord` persist, so "persistence
always precedes the notification send" fails for the combined trace. -/
theorem c8_counterexample :
    persistsPrecedeNotifies (handler "raw".data "development" exFailHW).2 = false := by
  decide

theorem c8_pipeline_persist_precedes_notify_witness :
    persistsPrecedeNotifies (processChargeback exDispute "development" exOkPW).2 = true :=
  c8_pipeline_persist_precedes_notify exDispute "development" exOkPW true rfl

theorem c4_order_not_found_witness :
    (handler "b".data "development" ex404HW).1 =
      { status := 404, body := "Order " ++ toString exDispute.order_id ++ " not found" } ∧
    notifyCount (handler "b".data "development" ex404HW).2 = 0 :=
  ⟨(c4_order_not_found "b".data "development" ex404HW exDispute rfl rfl rfl rfl rfl
      rfl rfl).1,
   (c4_order_not_found "b".data "development" ex404HW exDispute rfl rfl rfl rfl rfl
      rfl rfl).2.2.2.2⟩

theorem c5_type_gate_witness :
    (handler "b".data "development" exTypeHW).1 =
      { status := 400, body := "Unsupported dispute type" } ∧
    getOrderCount (handler "b".data "development" exTypeHW).2 = 0 ∧
    updateTagsCount (handler "b".data "development" exTypeHW).2 = 0 :=
  ⟨(c5_type_gate "b".data "development" exTypeHW exRefund rfl rfl rfl rfl (by decide)).1,
   (c5_type_gate "b".data "development" exTypeHW exRefund rfl rfl rfl rfl (by decide)).2.1,
   (c5_type_gate "b".data "development" exTypeHW exRefund rfl rfl rfl rfl (by decide)).2.2.1⟩

theorem c6_update_failure_keeps_tags_witness :
    (processChargeback exDispute "development" exCustPW).1 =
      { success := true, statusCode := 200, message := "Chargeback processed successfully" } ∧
    webhookRecords (processChargeback exDispute "development" exCustPW).2 =
      [{ customer_name := customerNameOf exOrderCust
         customer_email := customerEmailOf exOrderCust
         order_id := exDispute.order_id
         webhook_json := stringifyDispute exDispute
         action := (applyTagLogic (customerTagsOf exOrderCust)).action
         customer_tags_before := customerTagsOf exOrderCust
         customer_tags_after :=
           if false then (applyTagLogic (customerTagsOf exOrderCust)).newTags
           else customerTagsOf exOrderCust
         dispute_id := exDispute.id
         dispute_amount := exDispute.amount
         dispute_currency := exDispute.currency
         dispute_reason := exDispute.reason
         dispute_status := exDispute.status }] :=
  c6_update_failure_keeps_tags exDispute "development" exCustPW exOrderCust exCustomer
    false true true rfl rfl rfl (by decide) rfl rfl rfl

theorem c9_customer_absent_witness :
    (processChargeback exDispute "development" exNoCustPW).1 =
      { success := true, statusCode := 200, message := "Chargeback processed successfully" } ∧
    updateTagsCount (processChargeback exDispute "development" exNoCustPW).2 = 0 ∧
    notifyCount (processChargeback exDispute "development" exNoCustPW).2 = 1 :=
  ⟨(c9_customer_absent exDispute "development" exNoCustPW exOrderNoCust true true
      rfl rfl rfl rfl rfl).1,
   (c9_customer_absent exDispute "development" exNoCustPW exOrderNoCust true true
      rfl rfl rfl rfl rfl).2.1,
   (c9_customer_absent exDispute "development" exNoCustPW exOrderNoCust true true
      rfl rfl rfl rfl rfl).2.2.2⟩

theorem mem_escapeChar {t e c : Char} {s : List Char} (h : c ∈ escapeChar t e s) :
    c ∈ s ∨ c = '\\' ∨ c = e := by
  unfold escapeChar at h
  rw [List.mem_flatten] at h
  obtain ⟨l, hl, hcl⟩ := h
  rw [List.mem_map] at hl
  obtain ⟨x, hx, rfl⟩ := hl
  by_cases hxt : x = t
  · simp only [hxt, if_pos] at hcl
    rcases List.mem_pair.mp (by simpa using hcl) with h1 | h1
    · exact Or.inr (Or.inl h1)
    · exact Or.inr (Or.inr h1)
  · simp only [hxt, if_neg, if_false, List.mem_singleton] at hcl
    subst hcl
    exact Or.inl hx

theorem sanitizeCore_no_control (data : List Char) :
    ∀ c ∈ sanitizeCore data, isStrippedControl c = false := by
  intro c hc
  unfold sanitizeCore at hc
  rcases mem_escapeChar hc with hc1 | hc1 | hc1
  · rcases mem_escapeChar hc1 with hc2 | hc2 | hc2
    · rcases mem_escapeChar hc2 with hc3 | hc3 | hc3
      · rw [stripControl, List.mem_filter] at hc3
        simpa using hc3.2
      · subst hc3; decide
      · subst hc3; decide
    · subst hc2; decide
    · subst hc2; decide
  · subst hc1; decide
  · subst hc1; decide

/-- Claim C7: after the earlier gates pass, a body that is not valid JSON yields
status 400 and (database permitting) one `ErrorRecord` of kind
`JSONParseError` whose `request_data` is the sanitized payload — control
characters stripped, newline/return/tab escapes applied, wrapped in the
`{original_data, length, error}` object; the sanitized content contains no
control characters, and a valid-JSON payload passes through unchanged.  The
handler model is total, so no parse exception escapes. -/
theorem c7_json_parse_error (body : List Char) (env : String) (w : HandlerWorld)
    (hsig : w.sigValid = true) (htopic : w.topicOk = true) (hdom : w.domainOk = true)
    (hparse : w.parsed = none) :
    (handler body env w).1 = { status := 400, body := "Invalid JSON" } ∧
    errorRecords (handler body env w).2 =
      (if w.peConn then [jsonErrRecord body env w.parseErrMsg] else []) ∧
    (jsonErrRecord body env w.parseErrMsg).request_data =
      some (sanitizeRequestData false body) ∧
    (jsonErrRecord body env w.parseErrMsg).error_type = "JSONParseError" ∧
    sanitizeRequestData false body = jsonWrapInvalid (sanitizeCore body) body.length ∧
    (∀ c ∈ sanitizeCore body, isStrippedControl c = false) ∧
    (∀ data : List Char, sanitizeRequestData true data = data) := by
  refine ⟨?_, ?_, rfl, rfl, rfl, sanitizeCore_no_control body, fun data => rfl⟩
  · unfold handler
    rw [hsig, htopic, hdom, hparse]
    simp
  · unfold handler
    rw [hsig, htopic, hdom, hparse]
    cases hpc : w.peConn <;>
      simp [hpc, persistErrorEffects, errorRecords]

theorem c7_json_parse_error_witness :
    (handler "not json".data "development" exJsonHW).1 =
      { status := 400, body := "Invalid JSON" } ∧
    errorRecords (handler "not json".data "development" exJsonHW).2 =
      [jsonErrRecord "not json".data "development" "Unexpected token"] :=
  ⟨(c7_json_parse_error "not json".data "development" exJsonHW rfl rfl rfl rfl).1,
   by
    have h := (c7_json_parse_error "not json".data "development" exJsonHW rfl rfl rfl rfl).2.1
    simpa using h⟩
